import Mathlib

/-!
Verification development for the Twilio <-> OpenAI realtime voice bridge.

The repository's code is JavaScript; numeric code uses JavaScript's
bitwise operators, which coerce their operands to 32-bit two's-complement
integers (ToInt32).  We embed those operators faithfully on `ℤ`:
a value is reduced modulo 2^32, the bitwise operation is performed on
the 32-bit pattern, and the result is re-interpreted as a signed
32-bit integer.
-/

/-- ToUint32: the 32-bit pattern (as a natural number in `[0, 2^32)`) of an
integer, as JavaScript's ToInt32/ToUint32 coercion computes it. -/
def toUint32 (x : ℤ) : ℕ := (x % 4294967296).toNat

/-- Re-interpret a 32-bit pattern as a signed 32-bit integer
(two's complement). -/
def ofUint32 (n : ℕ) : ℤ :=
  if n % 4294967296 < 2147483648 then ((n % 4294967296 : ℕ) : ℤ)
  else ((n % 4294967296 : ℕ) : ℤ) - 4294967296

/-- JavaScript `a & b` on integers. -/
def jsAnd (a b : ℤ) : ℤ := ofUint32 (Nat.land (toUint32 a) (toUint32 b))

/-- JavaScript `a | b` on integers. -/
def jsOr (a b : ℤ) : ℤ := ofUint32 (Nat.lor (toUint32 a) (toUint32 b))

/-- JavaScript `~a` on integers (bitwise complement of the 32-bit pattern,
i.e. subtraction from the all-ones pattern). -/
def jsNot (a : ℤ) : ℤ := ofUint32 (4294967295 - toUint32 a)

/-- JavaScript `a << b` on integers (shift count is taken mod 32). -/
def jsShl (a b : ℤ) : ℤ := ofUint32 (Nat.shiftLeft (toUint32 a) (toUint32 b % 32))

/-- JavaScript `a >> b` on integers: sign-propagating (arithmetic) right
shift of the 32-bit value, i.e. floor division by a power of two. -/
def jsShr (a b : ℤ) : ℤ := Int.fdiv (ofUint32 (toUint32 a)) (2 ^ (toUint32 b % 32))

/-- muLawDecode, from `src/server.js` lines 559-567 (the identical function
also appears in `src/unnamed/part_003` lines 30-38):

```js
function muLawDecode(uVal) {
  uVal = ~uVal & 0xff;
  const sign = uVal & 0x80;
  let exponent = (uVal >> 4) & 0x07;
  let mantissa = uVal & 0x0f;
  let sample = ((mantissa << 4) + 0x08) << (exponent + 3);
  sample -= 0x84;
  return (sign ? -sample : sample) | 0;
}
```
-/
def muLawDecode (uVal0 : ℤ) : ℤ :=
  let uVal := jsAnd (jsNot uVal0) 0xff
  let sign := jsAnd uVal 0x80
  let exponent := jsAnd (jsShr uVal 4) 0x07
  let mantissa := jsAnd uVal 0x0f
  let sample0 := jsShl (jsShl mantissa 4 + 0x08) (exponent + 3)
  let sample := sample0 - 0x84
  jsOr (if sign ≠ 0 then -sample else sample) 0

/-- The `for (expMask = 0x4000; (pcmVal & expMask) === 0 && exponent > 0;
expMask >>= 1) exponent--;` loop shared by `muLawEncode` (src/server.js
lines 574-577) and `linearToMulaw` (src/unnamed/part_005 line 40).
The fuel argument is the current value of `exponent`; the mask argument
is the current `expMask` (initially `0x4000` when `exponent = 7`). -/
def muLawExpLoop (pcmVal : ℤ) : ℕ → ℤ → ℕ
  | 0, _ => 0
  | e + 1, expMask =>
      if jsAnd pcmVal expMask = 0 then muLawExpLoop pcmVal e (jsShr expMask 1)
      else e + 1

/-- muLawEncode, from `src/server.js` lines 568-582:

```js
function muLawEncode(pcmVal) {
  const BIAS = 0x84;
  let sign = (pcmVal >> 8) & 0x80;
  if (sign !== 0) pcmVal = -pcmVal;
  pcmVal += BIAS;
  if (pcmVal > 0x7fff) pcmVal = 0x7fff;
  let exponent = 7;
  for (let expMask = 0x4000; (pcmVal & expMask) === 0 && exponent > 0; expMask >>= 1) {
    exponent--;
  }
  const mantissa = (pcmVal >> ((exponent === 0) ? 4 : (exponent + 3))) & 0x0f;
  let uVal = ~(sign | (exponent << 4) | mantissa);
  return uVal & 0xff;
}
```
-/
def muLawEncode (pcmVal0 : ℤ) : ℤ :=
  let sign := jsAnd (jsShr pcmVal0 8) 0x80
  let pcmVal1 := if sign ≠ 0 then -pcmVal0 else pcmVal0
  let pcmVal2 := pcmVal1 + 0x84
  let pcmVal := if pcmVal2 > 0x7fff then 0x7fff else pcmVal2
  let exponent := muLawExpLoop pcmVal 7 0x4000
  let mantissa := jsAnd (jsShr pcmVal (if exponent = 0 then 4 else (exponent : ℤ) + 3)) 0x0f
  let uVal := jsNot (jsOr (jsOr sign (jsShl (exponent : ℤ) 4)) mantissa)
  jsAnd uVal 0xff

/-- linearToMulaw, from `src/unnamed/part_005` lines 33-43:

```js
function linearToMulaw(sample) {
  const BIAS = 0x84, CLIP = 32635;
  let sign = (sample >> 8) & 0x80;
  if (sample < 0) sample = -sample;
  if (sample > CLIP) sample = CLIP;
  sample = sample + BIAS;
  let exponent = 7;
  for (let expMask = 0x4000; (sample & expMask) === 0 && exponent > 0; expMask >>= 1) exponent--;
  const mantissa = (sample >> ((exponent === 0) ? 4 : (exponent + 3))) & 0x0F;
  return (~(sign | (exponent << 4) | mantissa)) & 0xff;
}
```
-/
def linearToMulaw (sample0 : ℤ) : ℤ :=
  let sign := jsAnd (jsShr sample0 8) 0x80
  let sample1 := if sample0 < 0 then -sample0 else sample0
  let sample2 := if sample1 > 32635 then 32635 else sample1
  let sample := sample2 + 0x84
  let exponent := muLawExpLoop sample 7 0x4000
  let mantissa := jsAnd (jsShr sample (if exponent = 0 then 4 else (exponent : ℤ) + 3)) 0x0f
  jsAnd (jsNot (jsOr (jsOr sign (jsShl (exponent : ℤ) 4)) mantissa)) 0xff

/-- JavaScript `x | 0` (ToInt32 coercion to a signed 32-bit integer). -/
def jsToInt32 (x : ℤ) : ℤ := ofUint32 (toUint32 x)

/-- JavaScript float-to-integer truncation toward zero, as applied by
ToInt32 to a (finite, in-range) fractional value.  The resampler's
arithmetic on the rates of interest is exact in rationals, so we model
the double-precision intermediate values by `ℚ`. -/
def ratTrunc (q : ℚ) : ℤ := if 0 ≤ q then ⌊q⌋ else -⌊-q⌋

/-- Storing into an `Int16Array` wraps the value to a signed 16-bit
integer (ToInt16). -/
def asInt16 (x : ℤ) : ℤ :=
  if x % 65536 < 32768 then x % 65536 else x % 65536 - 65536

/-- The source index `i0 = Math.floor(i / ratio)` read by `resamplePCM16`
(src/server.js line 591-592), where `ratio = outRate / inRate`.
All quantities are nonnegative, so `Math.floor` is `Nat.floor`. -/
def srcIndex0 (inRate outRate i : ℕ) : ℕ :=
  ⌊(i : ℚ) / ((outRate : ℚ) / (inRate : ℚ))⌋₊

/-- resamplePCM16, from `src/server.js` lines 583-596 (also identical in
`src/unnamed/part_003` lines 54-67):

```js
function resamplePCM16(int16Array, inRate, outRate) {
  if (inRate === outRate) return int16Array;
  const ratio = outRate / inRate;
  const outLength = Math.floor(int16Array.length * ratio);
  const out = new Int16Array(outLength);
  for (let i = 0; i < outLength; i++) {
    const srcIndex = i / ratio;
    const i0 = Math.floor(srcIndex);
    const i1 = Math.min(i0 + 1, int16Array.length - 1);
    const frac = srcIndex - i0;
    out[i] = (int16Array[i0] * (1 - frac) + int16Array[i1] * frac) | 0;
  }
  return out;
}
```

Out-of-range reads are modelled with `List.getD _ _ 0`; the theorems for
claim C5 show the indices stay in bounds so the default is never used. -/
def resamplePCM16 (int16Array : List ℤ) (inRate outRate : ℕ) : List ℤ :=
  if inRate = outRate then int16Array
  else
    let ratio : ℚ := (outRate : ℚ) / (inRate : ℚ)
    let outLength : ℕ := ⌊(int16Array.length : ℚ) * ratio⌋₊
    (List.range outLength).map fun (i : ℕ) =>
      let srcIndex : ℚ := (i : ℚ) / ratio
      let i0 : ℕ := ⌊srcIndex⌋₊
      let i1 : ℕ := min (i0 + 1) (int16Array.length - 1)
      let frac : ℚ := srcIndex - (i0 : ℚ)
      asInt16 (jsToInt32 (ratTrunc
        ((int16Array.getD i0 0 : ℚ) * (1 - frac) + (int16Array.getD i1 0 : ℚ) * frac)))

/-- The source index `i0 = Math.floor(i * ratio)` read by `resamplePcm16`
(src/unnamed/part_005 lines 52-53), where `ratio = srcRate / dstRate`. -/
def srcIndexP5 (srcRate dstRate i : ℕ) : ℕ :=
  ⌊(i : ℚ) * ((srcRate : ℚ) / (dstRate : ℚ))⌋₊

/-- resamplePcm16, from `src/unnamed/part_005` lines 46-59:

```js
function resamplePcm16(int16Arr, srcRate, dstRate) {
  if (srcRate === dstRate) return int16Arr;
  const ratio = srcRate / dstRate;
  const outLen = Math.floor(int16Arr.length / ratio);
  const out = new Int16Array(outLen);
  for (let i = 0; i < outLen; i++) {
    const idx = i * ratio;
    const i0 = Math.floor(idx);
    const i1 = Math.min(i0 + 1, int16Arr.length - 1);
    const frac = idx - i0;
    out[i] = (int16Arr[i0] * (1 - frac) + int16Arr[i1] * frac) | 0;
  }
  return out;
}
```
-/
def resamplePcm16 (int16Arr : List ℤ) (srcRate dstRate : ℕ) : List ℤ :=
  if srcRate = dstRate then int16Arr
  else
    let ratio : ℚ := (srcRate : ℚ) / (dstRate : ℚ)
    let outLen : ℕ := ⌊(int16Arr.length : ℚ) / ratio⌋₊
    (List.range outLen).map fun (i : ℕ) =>
      let idx : ℚ := (i : ℚ) * ratio
      let i0 : ℕ := ⌊idx⌋₊
      let i1 : ℕ := min (i0 + 1) (int16Arr.length - 1)
      let frac : ℚ := idx - (i0 : ℚ)
      asInt16 (jsToInt32 (ratTrunc
        ((int16Arr.getD i0 0 : ℚ) * (1 - frac) + (int16Arr.getD i1 0 : ℚ) * frac)))

namespace Pacer

/-- One frame is 20 ms at 8 kHz: 160 bytes of mu-law
(src/unnamed/part_005 line 105). -/
def OUT_FRAME_SAMPLES : ℕ := 160

/-- The byte-gathering while-loop of a pacer tick
(src/unnamed/part_005 lines 115-126):

```js
let filled = 0;
while (filled < OUT_FRAME_SAMPLES && outBuffer.length) {
  const chunk = outBuffer[0];
  const take = Math.min(OUT_FRAME_SAMPLES - filled, chunk.length);
  frame.set(chunk.subarray(0, take), filled);
  filled += take;
  if (take < chunk.length) {
    outBuffer[0] = chunk.subarray(take);
  } else {
    outBuffer.shift();
  }
}
```

`fillFrame remaining outBuffer` returns the bytes gathered (in order) and
the queue left behind, where `remaining = OUT_FRAME_SAMPLES - filled`. -/
def fillFrame : ℕ → List (List ℕ) → List ℕ × List (List ℕ)
  | _, [] => ([], [])
  | remaining, chunk :: rest =>
    if remaining = 0 then ([], chunk :: rest)
    else
      let take := min remaining chunk.length
      if take < chunk.length then (chunk.take take, chunk.drop take :: rest)
      else
        let r := fillFrame (remaining - take) rest
        (chunk.take take ++ r.1, r.2)

/-- One tick of the pacer interval (src/unnamed/part_005 lines 111-137):
if the stream id is not yet known or the Twilio socket is not open the
tick does nothing; otherwise exactly one frame is assembled from the
queue, padded to 160 bytes with the mu-law silence byte `0xFF`, and sent.
Returns the queue after the tick and the frame sent (if any). -/
def pacerTick (streamSid : Option ℕ) (twilioOpen : Bool) (outBuffer : List (List ℕ)) :
    List (List ℕ) × Option (List ℕ) :=
  if streamSid = none ∨ twilioOpen = false then (outBuffer, none)
  else
    let r := fillFrame OUT_FRAME_SAMPLES outBuffer
    let frame := r.1 ++ List.replicate (OUT_FRAME_SAMPLES - r.1.length) 0xff
    (r.2, some frame)

end Pacer

namespace MainBridge

/-- The turn-finalization state of the `Bridge` class of the main server
variant (src/server.js lines 652-1066).  `openaiOpen` models
`openaiWs.readyState === WebSocket.OPEN`; `timerSet` models
`commitTimer !== null`. -/
structure St where
  fallbackTriggered : Bool
  openaiReady : Bool
  openaiOpen : Bool
  bytesSinceCommit : ℕ
  timerSet : Bool
deriving DecidableEq, Repr

/-- `this.commitThresholdBytes = 16000` (src/server.js line 674). -/
def commitThresholdBytes : ℕ := 16000

/-- Events relevant to turn finalization: a Twilio `media` frame carrying
a mu-law payload of the given byte length, the 750 ms commit timer
firing, and OpenAI signalling `response.done`. -/
inductive Ev
  | media (ulawBytes : ℕ)
  | commitTimerFire
  | responseDone
deriving DecidableEq, Repr

/-- Messages the bridge sends to OpenAI/Twilio while finalizing turns. -/
inductive Act
  | appendAudio (pcmBytes : ℕ)
  | commit (pcmBytes : ℕ)
  | responseCreate
  | twilioMark
deriving DecidableEq, Repr

/-- Bridge._commitAudioBuffer (src/server.js lines 880-899): no-op when a
fallback is in progress, the OpenAI socket is not open, or no caller audio
is pending; otherwise clears the commit timer, sends
`input_audio_buffer.commit`, zeroes the pending-byte counter and (unless
`requestResponse` is false) sends `response.create`. -/
def commitAudioBuffer (s : St) (_force requestResponse : Bool) : St × List Act :=
  if s.fallbackTriggered then (s, [])
  else if !s.openaiOpen then (s, [])
  else if s.bytesSinceCommit = 0 then (s, [])
  else
    ({ s with bytesSinceCommit := 0, timerSet := false },
      Act.commit s.bytesSinceCommit ::
        (if requestResponse then [Act.responseCreate] else []))

/-- The `media` case of Bridge.handleTwilioMessage (src/server.js lines
959-1001).  A mu-law payload of `ulawBytes` bytes is decoded to PCM16 and
resampled from 8 kHz to 16 kHz, giving `4 * ulawBytes` bytes; the handler
appends it, reschedules the 750 ms commit timer, and commits immediately
if the pending bytes reach the 16000-byte threshold.  An absent/empty
payload (`!obj.media?.payload`) is dropped. -/
def handleMedia (s : St) (ulawBytes : ℕ) : St × List Act :=
  if s.fallbackTriggered then (s, [])
  else if !(s.openaiReady && s.openaiOpen) then (s, [])
  else if ulawBytes = 0 then (s, [])
  else
    let pcmBytes := 4 * ulawBytes
    let s1 := { s with bytesSinceCommit := s.bytesSinceCommit + pcmBytes, timerSet := true }
    if commitThresholdBytes ≤ s1.bytesSinceCommit then
      let r := commitAudioBuffer s1 false true
      (r.1, Act.appendAudio pcmBytes :: r.2)
    else (s1, [Act.appendAudio pcmBytes])

/-- The commit-timer callback scheduled by _scheduleCommit (src/server.js
lines 865-872): fires only while the timer is set (each media frame
reschedules it, so a firing means 750 ms passed with no further media);
it nulls the timer and calls `_commitAudioBuffer({ force: true })`. -/
def commitTimerFire (s : St) : St × List Act :=
  if !s.timerSet then (s, [])
  else commitAudioBuffer { s with timerSet := false } true true

/-- Handling of `response.audio.done` / `response.done` (src/server.js
lines 806-810): only a Twilio mark is sent; no awaiting-response flag
exists to be cleared.  The Twilio socket is taken to be open. -/
def handleResponseDone (s : St) : St × List Act :=
  if s.fallbackTriggered then (s, []) else (s, [Act.twilioMark])

def step (s : St) : Ev → St × List Act
  | Ev.media n => handleMedia s n
  | Ev.commitTimerFire => commitTimerFire s
  | Ev.responseDone => handleResponseDone s

/-- State after the OpenAI socket's `open` event: ready, nothing pending. -/
def init : St :=
  { fallbackTriggered := false, openaiReady := true, openaiOpen := true,
    bytesSinceCommit := 0, timerSet := false }

/-- Run a timestamped event trace; each event is paired with the actions
its handler emitted.  Timestamps (arbitrary time units) are carried along
so that silence gaps can be stated. -/
def run (s : St) : List (ℕ × Ev) → List (ℕ × Ev × List Act)
  | [] => []
  | (t, e) :: rest =>
      let r := step s e
      (t, e, r.2) :: run r.1 rest

def isCommit : Act → Bool
  | Act.commit _ => true
  | _ => false

/-- Does the i-th processed event emit a commit (turn finalization)? -/
def entryCommits (o : List (ℕ × Ev × List Act)) (i : ℕ) : Bool :=
  match o.get? i with
  | some (_, _, acts) => acts.any isCommit
  | none => false

/-- Is the i-th processed event a Twilio media (caller audio) frame? -/
def entryIsMedia (o : List (ℕ × Ev × List Act)) (i : ℕ) : Bool :=
  match o.get? i with
  | some (_, Ev.media _, _) => true
  | _ => false

/-- Is the i-th processed event a `response.done` from OpenAI? -/
def entryRespDone (o : List (ℕ × Ev × List Act)) (i : ℕ) : Bool :=
  match o.get? i with
  | some (_, Ev.responseDone, _) => true
  | _ => false

/-- Timestamp of the i-th processed event. -/
def entryTime (o : List (ℕ × Ev × List Act)) (i : ℕ) : ℕ :=
  match o.get? i with
  | some (t, _, _) => t
  | none => 0

/-- Actions emitted by the i-th processed event. -/
def entryActs (o : List (ℕ × Ev × List Act)) (i : ℕ) : List Act :=
  match o.get? i with
  | some (_, _, acts) => acts
  | none => []

/-- Timestamps are weakly increasing along a trace. -/
def Chron (tr : List (ℕ × Ev)) : Prop :=
  List.Chain' (fun a b => a.1 ≤ b.1) tr

/-- Claim C2, formalized over the bridge model: on every chronological
trace, (a) between any two finalizations a `response.done` is processed
(no new finalization while a response is awaited), (b) every finalization
commits a strictly positive number of pending bytes, and (c) every
finalization happens strictly later than every caller-audio frame
processed up to and including it (a strictly positive silence gap). -/
def ClaimC2Statement : Prop :=
  ∀ tr : List (ℕ × Ev), Chron tr →
    ((∀ i j, i < j → entryCommits (run init tr) i = true →
        entryCommits (run init tr) j = true →
        ∃ k, i < k ∧ k < j ∧ entryRespDone (run init tr) k = true) ∧
     (∀ i a b, a ∈ entryActs (run init tr) i → a = Act.commit b → 0 < b) ∧
     (∀ i, entryCommits (run init tr) i = true →
        ∀ j ≤ i, entryIsMedia (run init tr) j = true →
          entryTime (run init tr) j < entryTime (run init tr) i))

end MainBridge

/-- Events shared by the pre-start buffering models: an OpenAI audio
delta (opaque payload) and the Twilio `start` event carrying the stream
id. -/
inductive PreEv
  | openaiDelta (payload : ℕ)
  | twilioStart (sid : ℕ)
deriving DecidableEq, Repr

namespace Part000

/-- State of the tutorial-style bridge of `src/unnamed/part_000`:
the stream id (if `start` has been seen) and the media messages sent to
the Twilio socket, in order, as (stream id, payload) pairs. -/
structure St where
  streamSid : Option ℕ
  sent : List (ℕ × ℕ)
deriving DecidableEq, Repr

/-- The `openai.on("message")` delta forwarding of `src/unnamed/part_000`
lines 129-138: a delta is forwarded only
`if (msg.type === "response.output_audio.delta" && msg.delta && streamSid)`;
with no stream id yet, nothing is stored and nothing is sent — the delta
is dropped.  The `start` case (lines 158-161) only records the id. -/
def step (s : St) : PreEv → St
  | PreEv.openaiDelta p =>
      match s.streamSid with
      | some sid => { s with sent := s.sent ++ [(sid, p)] }
      | none => s
  | PreEv.twilioStart sid => { s with streamSid := some sid }

def run (s : St) : List PreEv → St
  | [] => s
  | e :: rest => run (step s e) rest

def init : St := { streamSid := none, sent := [] }

end Part000

namespace Part004

/-- State of the buffering bridge (second document of
`src/unnamed/part_004`, lines 159-312): stream id, whether the Twilio
socket is open, the `pendingAudio` queue of early deltas, and the media
messages sent to Twilio in order. -/
structure St where
  streamSid : Option ℕ
  twilioOpen : Bool
  pendingAudio : List ℕ
  sent : List (ℕ × ℕ)
deriving DecidableEq, Repr

/-- flushPendingAudio (src/unnamed/part_004 lines 206-212): if the stream
id is known and the socket open, shift-and-send every queued delta in
FIFO order. -/
def flushPendingAudio (s : St) : St :=
  match s.streamSid, s.twilioOpen with
  | some sid, true =>
      { s with pendingAudio := [], sent := s.sent ++ s.pendingAudio.map (fun p => (sid, p)) }
  | _, _ => s

/-- Delta handling (lines 231-238): send immediately when the stream id
is known and the socket open, otherwise push onto `pendingAudio`;
`start` handling (lines 270-276): record the id, then flush. -/
def step (s : St) : PreEv → St
  | PreEv.openaiDelta p =>
      match s.streamSid, s.twilioOpen with
      | some sid, true => { s with sent := s.sent ++ [(sid, p)] }
      | _, _ => { s with pendingAudio := s.pendingAudio ++ [p] }
  | PreEv.twilioStart sid => flushPendingAudio { s with streamSid := some sid }

def run (s : St) : List PreEv → St
  | [] => s
  | e :: rest => run (step s e) rest

def init : St := { streamSid := none, twilioOpen := true, pendingAudio := [], sent := [] }

end Part004

/-- Claim C3, formalized: for BOTH cited delta-forwarding sites (the
buffering variant of part_004 and the forwarding of part_000), deltas
arriving before `start` are queued (never emitted early) and are all
emitted in FIFO order exactly when `start` arrives. -/
def ClaimC3Statement : Prop :=
  (∀ (ds : List ℕ) (sid : ℕ),
      (Part004.run Part004.init (ds.map PreEv.openaiDelta)).sent = [] ∧
      (Part004.run Part004.init
          (ds.map PreEv.openaiDelta ++ [PreEv.twilioStart sid])).sent =
        ds.map (fun p => (sid, p))) ∧
  (∀ (ds : List ℕ) (sid : ℕ),
      (Part000.run Part000.init (ds.map PreEv.openaiDelta)).sent = [] ∧
      (Part000.run Part000.init
          (ds.map PreEv.openaiDelta ++ [PreEv.twilioStart sid])).sent =
        ds.map (fun p => (sid, p)))

namespace Fallback

/-- Teardown-relevant state of the main-variant `Bridge`
(src/server.js lines 652-1066).  `hasTwilioClient`/`hasCallSid` record
whether the Twilio REST client is configured and a call id was received
(src/server.js lines 934-946 branch on them). -/
structure St where
  fallbackTriggered : Bool
  closedByStop : Bool
  openaiReady : Bool
  openaiOpen : Bool
  twilioOpen : Bool
  hasTwilioClient : Bool
  hasCallSid : Bool
deriving DecidableEq, Repr

/-- Events on the AI side: transport error, socket close, and an
`response.audio.delta` audio event (opaque payload). -/
inductive Ev
  | openaiError
  | openaiClose
  | openaiAudioDelta (payload : ℕ)
deriving DecidableEq, Repr

/-- Externally visible effects of teardown and audio forwarding. -/
inductive Act
  | fallbackNotice
  | warnNoNotice
  | closeOpenai
  | closeTwilio
  | mediaFrame (payload : ℕ)
deriving DecidableEq, Repr

/-- Bridge._sendFallbackAndClose (src/server.js lines 911-951): returns
immediately when already triggered; otherwise sets the flags, closes the
OpenAI socket if open, sends the fallback TwiML when the Twilio client
and callSid are available (else only warns), and closes the Twilio
socket if open. -/
def sendFallbackAndClose (s : St) : St × List Act :=
  if s.fallbackTriggered then (s, [])
  else
    let s1 := { s with fallbackTriggered := true, closedByStop := true, openaiReady := false }
    let closeAi : List Act := if s1.openaiOpen then [Act.closeOpenai] else []
    let notice : List Act :=
      if s1.hasTwilioClient && s1.hasCallSid then [Act.fallbackNotice] else [Act.warnNoNotice]
    let closeTw : List Act := if s1.twilioOpen then [Act.closeTwilio] else []
    ({ s1 with openaiOpen := false, twilioOpen := false },
      closeAi ++ notice ++ closeTw)

/-- openaiWs `error` handler (src/server.js lines 813-817). -/
def onOpenaiError (s : St) : St × List Act := sendFallbackAndClose s

/-- openaiWs `close` handler (src/server.js lines 819-827): the socket is
now closed and `openaiReady` is cleared; unless a fallback already ran or
the call was stopped, the close is unexpected and triggers the fallback. -/
def onOpenaiClose (s : St) : St × List Act :=
  let s1 := { s with openaiReady := false, openaiOpen := false }
  if !s1.fallbackTriggered && !s1.closedByStop then sendFallbackAndClose s1 else (s1, [])

/-- `response.audio.delta` handling (src/server.js lines 752-757 guard and
790-803) followed by Bridge._twilioMedia (lines 829-839): nothing happens
once `fallbackTriggered` is set; otherwise a media frame goes out if the
Twilio socket is open. -/
def onOpenaiAudioDelta (s : St) (p : ℕ) : St × List Act :=
  if s.fallbackTriggered then (s, [])
  else if s.twilioOpen then (s, [Act.mediaFrame p])
  else (s, [])

def step (s : St) : Ev → St × List Act
  | Ev.openaiError => onOpenaiError s
  | Ev.openaiClose => onOpenaiClose s
  | Ev.openaiAudioDelta p => onOpenaiAudioDelta s p

/-- Run a list of AI-side events, collecting all emitted actions. -/
def run (s : St) : List Ev → St × List Act
  | [] => (s, [])
  | e :: rest =>
      let r := step s e
      let r2 := run r.1 rest
      (r2.1, r.2 ++ r2.2)

/-- Bridge state before any failure: fallback not triggered, Twilio
socket open, Twilio REST client and callSid available; the OpenAI socket
may or may not yet be connected/ready (`r`, `o`) — the claim covers
failures both before and after READY. -/
def initAt (r o : Bool) : St :=
  { fallbackTriggered := false, closedByStop := false, openaiReady := r,
    openaiOpen := o, twilioOpen := true, hasTwilioClient := true, hasCallSid := true }

def isMediaFrame : Act → Bool
  | Act.mediaFrame _ => true
  | _ => false

end Fallback

namespace ParseHandling

/-- A raw inbound WebSocket text frame, abstracted to the outcome of
`JSON.parse`: either it is not valid JSON, or it parses to a value. -/
inductive Raw (α : Type)
  | malformed
  | parsed (v : α)
deriving DecidableEq, Repr

/-- Parsed Twilio frames relevant to the message handlers. -/
inductive TwEvent
  | start (sid : ℕ)
  | media (payload : ℕ)
  | stop
  | other
deriving DecidableEq, Repr

/-- Effects of the message handlers. -/
inductive Act
  | logParseError
  | forwardAppend (payload : ℕ)
  | commitOnStop
  | startBridge (sid : ℕ)
  | dispatchToBridge
deriving DecidableEq, Repr

/-- The Twilio message handler of the FIRST server variant
(src/server.js lines 86-100):

```js
twilioWs.on("message", (msg) => {
  const data = JSON.parse(msg);
  if (data.event === "media") { ... openaiWs?.send(... append ...) }
  else if (data.event === "stop") { openaiWs?.send(... commit ...) }
});
```

`JSON.parse` is NOT wrapped in try/catch here, so a malformed frame
makes the handler throw (modelled as `Except.error`); the frame is not
dropped gracefully and the exception escapes the handler. -/
def variant1TwilioOnMessage : Raw TwEvent → Except String (List Act)
  | Raw.malformed => Except.error "SyntaxError: unexpected token"
  | Raw.parsed e =>
      Except.ok
        (match e with
         | TwEvent.media p => [Act.forwardAppend p]
         | TwEvent.stop => [Act.commitOnStop]
         | _ => [])

/-- The Twilio message handler of the MAIN server variant
(src/server.js lines 1051-1060):

```js
ws.on("message", (msg) => {
  let obj;
  try { obj = JSON.parse(msg.toString()); } catch { return; }
  if (obj.event === "start") { bridge = new Bridge(ws, obj); }
  else if (bridge) { bridge.handleTwilioMessage(obj); }
});
```

A malformed frame is dropped by the bare `catch { return; }` — silently,
with no logging — and the handler returns normally. -/
def mainTwilioOnMessage (bridgeExists : Bool) :
    Raw TwEvent → Except String (List Act)
  | Raw.malformed => Except.ok []
  | Raw.parsed e =>
      Except.ok
        (match e with
         | TwEvent.start sid => [Act.startBridge sid]
         | _ => if bridgeExists then [Act.dispatchToBridge] else [])

/-- The OpenAI message handler of the MAIN server variant
(src/server.js lines 752-760):

```js
this.openaiWs.on("message", (buf) => {
  if (this.fallbackTriggered) return;
  let msg;
  try { msg = JSON.parse(buf.toString()); } catch (err) {
    console.error(`... Failed to parse OpenAI message:`, err);
    return;
  }
  ...
});
```

A malformed frame is dropped AND logged, and the handler returns
normally.  Parsed AI events (opaque here) are dispatched. -/
def mainOpenaiOnMessage (fallbackTriggered : Bool) :
    Raw ℕ → Except String (List Act)
  | Raw.malformed =>
      if fallbackTriggered then Except.ok [] else Except.ok [Act.logParseError]
  | Raw.parsed _ =>
      if fallbackTriggered then Except.ok [] else Except.ok [Act.dispatchToBridge]

end ParseHandling

/-- Claim C8, formalized: for every cited inbound message handler, a
frame that is unparseable JSON is dropped with a log entry and the
handler completes normally (the session continues). -/
def ClaimC8Statement : Prop :=
  (∃ acts, ParseHandling.variant1TwilioOnMessage ParseHandling.Raw.malformed =
      Except.ok acts ∧ ParseHandling.Act.logParseError ∈ acts) ∧
  (∀ bridgeExists, ∃ acts,
      ParseHandling.mainTwilioOnMessage bridgeExists ParseHandling.Raw.malformed =
        Except.ok acts ∧ ParseHandling.Act.logParseError ∈ acts) ∧
  (∃ acts, ParseHandling.mainOpenaiOnMessage false ParseHandling.Raw.malformed =
      Except.ok acts ∧ ParseHandling.Act.logParseError ∈ acts)

/-! ### Theorems -/

theorem ofUint32_small {k : ℕ} (h : k < 2147483648) : ofUint32 k = (k : ℤ) := by
  have h2 : k % 4294967296 = k := Nat.mod_eq_of_lt (by omega)
  unfold ofUint32
  rw [h2]
  simp [h]

theorem jsAnd_255_bounds (a : ℤ) : 0 ≤ jsAnd a 255 ∧ jsAnd a 255 ≤ 255 := by
  have hland : Nat.land (toUint32 a) (toUint32 255) ≤ 255 := by
    have h255 : toUint32 255 = 255 := by decide
    rw [h255]
    exact Nat.and_le_right
  unfold jsAnd
  rw [ofUint32_small (lt_of_le_of_lt hland (by norm_num))]
  exact ⟨Int.natCast_nonneg _, by exact_mod_cast hland⟩

theorem muLawEncode_bounds (x : ℤ) : 0 ≤ muLawEncode x ∧ muLawEncode x ≤ 255 := by
  unfold muLawEncode
  exact jsAnd_255_bounds _

theorem linearToMulaw_bounds (x : ℤ) : 0 ≤ linearToMulaw x ∧ linearToMulaw x ≤ 255 := by
  unfold linearToMulaw
  exact jsAnd_255_bounds _

theorem muLawEncodeHiAll :
    ((List.range 132).all fun k => muLawEncode (32636 + (k : ℤ)) == 128) = true := by decide

theorem muLawEncodeLoAll :
    ((List.range 133).all fun k => muLawEncode (-32768 + (k : ℤ)) == 0) = true := by decide

theorem linearToMulawHiAll :
    ((List.range 132).all fun k => linearToMulaw (32636 + (k : ℤ)) == 128) = true := by decide

theorem linearToMulawLoAll :
    ((List.range 133).all fun k => linearToMulaw (-32768 + (k : ℤ)) == 0) = true := by decide

theorem allRangeImp {n : ℕ} {f : ℕ → ℤ} {c : ℤ}
    (h : ((List.range n).all fun k => f k == c) = true) :
    ∀ k, k < n → f k = c := by
  intro k hk
  have h2 := List.all_eq_true.mp h k (List.mem_range.mpr hk)
  exact beq_iff_eq.mp h2

/-- C9: for every signed 16-bit input sample, including the extremes
-32768 and 32767, both encoders return a value in the byte range 0..255,
and inputs at or beyond the law's maximum representable magnitude
saturate to the extreme code words (128 for positive, 0 for negative)
instead of overflowing or wrapping. -/
theorem c9_encode_saturates (s : ℤ) (h1 : -32768 ≤ s) (h2 : s ≤ 32767) :
    (0 ≤ muLawEncode s ∧ muLawEncode s ≤ 255) ∧
    (0 ≤ linearToMulaw s ∧ linearToMulaw s ≤ 255) ∧
    (32636 ≤ s → muLawEncode s = 128 ∧ linearToMulaw s = 128) ∧
    (s ≤ -32636 → muLawEncode s = 0 ∧ linearToMulaw s = 0) := by
  refine ⟨muLawEncode_bounds s, linearToMulaw_bounds s, ?_, ?_⟩
  · intro hs
    have hk : (s - 32636).toNat < 132 := by omega
    have hs2 : s = 32636 + ((s - 32636).toNat : ℤ) := by omega
    constructor
    · rw [hs2]
      exact allRangeImp muLawEncodeHiAll _ hk
    · rw [hs2]
      exact allRangeImp linearToMulawHiAll _ hk
  · intro hs
    have hk : (s + 32768).toNat < 133 := by omega
    have hs2 : s = -32768 + ((s + 32768).toNat : ℤ) := by omega
    constructor
    · rw [hs2]
      exact allRangeImp muLawEncodeLoAll _ hk
    · rw [hs2]
      exact allRangeImp linearToMulawLoAll _ hk

/-- Witness for C9 at the extreme sample 32767. -/
theorem c9_encode_saturates_witness :
    (-32768 : ℤ) ≤ 32767 ∧ (32767 : ℤ) ≤ 32767 ∧
    ((0 ≤ muLawEncode 32767 ∧ muLawEncode 32767 ≤ 255) ∧
     (0 ≤ linearToMulaw 32767 ∧ linearToMulaw 32767 ≤ 255) ∧
     (32636 ≤ (32767 : ℤ) → muLawEncode 32767 = 128 ∧ linearToMulaw 32767 = 128) ∧
     ((32767 : ℤ) ≤ -32636 → muLawEncode 32767 = 0 ∧ linearToMulaw 32767 = 0)) :=
  ⟨by decide, by decide, c9_encode_saturates 32767 (by decide) (by decide)⟩

/-- C4: muLawDecode is total and deterministic on the full byte range (it
is a function), but its result is NOT always a signed 16-bit sample: the
code's expansion formula `((mantissa << 4) + 0x08) << (exponent + 3)`
produces values up to 253820 in magnitude, far outside the int16 range,
so the claim fails on the code.  Byte 0x00 decodes to -253820 (a standard
G.711 mu-law decoder yields -32124 there) and byte 0x80 to 253820. -/
theorem c4_decode_exceeds_int16 :
    muLawDecode 0 = -253820 ∧ muLawDecode 0 < -32768 ∧
    muLawDecode 128 = 253820 ∧ 32767 < muLawDecode 128 := by decide

set_option maxRecDepth 4000 in
/-- C1: the round trip muLawEncode (muLawDecode b) is wildly lossy on the
code as written, not within any companding quantization bound.  At byte
0x00: the decode is -253820, re-encoding gives byte 159, whose decode is
3964 — a decoded-value discrepancy of 257784, which exceeds 1024, the
largest quantization step of the standard mu-law companding law (and so
exceeds any quantization error bound of the law).  Additionally, no byte
whatsoever is a fixed point of the round trip. -/
theorem c1_roundtrip_blowup :
    muLawDecode 0 = -253820 ∧
    muLawEncode (muLawDecode 0) = 159 ∧
    muLawDecode (muLawEncode (muLawDecode 0)) = 3964 ∧
    muLawDecode (muLawEncode (muLawDecode 0)) - muLawDecode 0 = 257784 ∧
    1024 < muLawDecode (muLawEncode (muLawDecode 0)) - muLawDecode 0 ∧
    ((List.range 256).all fun b => muLawEncode (muLawDecode b) != (b : ℤ)) = true := by
  decide

theorem floorMulRatio (len S D : ℕ) :
    ⌊(len : ℚ) * ((D : ℚ) / (S : ℚ))⌋₊ = len * D / S := by
  have h : (len : ℚ) * ((D : ℚ) / (S : ℚ)) = ((len * D : ℕ) : ℚ) / ((S : ℕ) : ℚ) := by
    push_cast
    ring
  rw [h, Nat.floor_div_nat, Nat.floor_natCast]

theorem floorDivRatio (len S D : ℕ) :
    ⌊(len : ℚ) / ((S : ℚ) / (D : ℚ))⌋₊ = len * D / S := by
  rw [div_div_eq_mul_div]
  have h : (len : ℚ) * (D : ℚ) / (S : ℚ) = ((len * D : ℕ) : ℚ) / ((S : ℕ) : ℚ) := by
    push_cast
    ring
  rw [h, Nat.floor_div_nat, Nat.floor_natCast]

theorem srcIndex0_eq (S D i : ℕ) : srcIndex0 S D i = i * S / D :=
  floorDivRatio i D S

theorem srcIndexP5_eq (S D i : ℕ) : srcIndexP5 S D i = i * S / D :=
  floorMulRatio i D S

theorem idxBound {len S D i : ℕ} (hS : 0 < S) (hD : 0 < D)
    (hi : i < len * D / S) : i * S / D < len := by
  have h1 : (i + 1) * S ≤ len * D := (Nat.le_div_iff_mul_le hS).mp hi
  have h2 : i * S < len * D :=
    lt_of_lt_of_le ((Nat.mul_lt_mul_right hS).mpr (Nat.lt_succ_self i)) h1
  exact (Nat.div_lt_iff_lt_mul hD).mpr h2

theorem resamplePCM16_length (samples : List ℤ) (S D : ℕ) (hS : 0 < S) :
    (resamplePCM16 samples S D).length = samples.length * D / S := by
  by_cases hSD : S = D
  · subst hSD
    rw [resamplePCM16, if_pos rfl, Nat.mul_div_cancel _ hS]
  · simp only [resamplePCM16, if_neg hSD, List.length_map, List.length_range]
    exact floorMulRatio samples.length S D

theorem resamplePcm16_length (samples : List ℤ) (S D : ℕ) (hS : 0 < S) :
    (resamplePcm16 samples S D).length = samples.length * D / S := by
  by_cases hSD : S = D
  · subst hSD
    rw [resamplePcm16, if_pos rfl, Nat.mul_div_cancel _ hS]
  · simp only [resamplePcm16, if_neg hSD, List.length_map, List.length_range]
    exact floorDivRatio samples.length S D

/-- C5: for the rates of interest both resamplers return exactly
`floor(len * D / S)` samples, every interpolation read index is in
bounds (`i0 < len`, and `i1 = min (i0+1) (len-1)` is clamped to the last
valid index), and empty input yields empty output. -/
theorem c5_resample_length_and_clamp (samples : List ℤ) (S D : ℕ)
    (hS : S ∈ ([8000, 16000, 24000] : List ℕ))
    (hD : D ∈ ([8000, 16000, 24000] : List ℕ))
    (hlen : samples.length ∈ ([0, 1, 160, 3200] : List ℕ)) :
    (resamplePCM16 samples S D).length = samples.length * D / S ∧
    (resamplePcm16 samples S D).length = samples.length * D / S ∧
    (∀ i, i < samples.length * D / S →
        srcIndex0 S D i < samples.length ∧
        srcIndexP5 S D i < samples.length ∧
        min (srcIndex0 S D i + 1) (samples.length - 1) ≤ samples.length - 1 ∧
        min (srcIndexP5 S D i + 1) (samples.length - 1) ≤ samples.length - 1) ∧
    (samples = [] → resamplePCM16 samples S D = [] ∧ resamplePcm16 samples S D = []) := by
  have hS0 : 0 < S := by
    simp only [List.mem_cons, List.not_mem_nil, or_false] at hS
    rcases hS with rfl | rfl | rfl <;> norm_num
  have hD0 : 0 < D := by
    simp only [List.mem_cons, List.not_mem_nil, or_false] at hD
    rcases hD with rfl | rfl | rfl <;> norm_num
  refine ⟨resamplePCM16_length samples S D hS0, resamplePcm16_length samples S D hS0,
    ?_, ?_⟩
  · intro i hi
    refine ⟨?_, ?_, min_le_right _ _, min_le_right _ _⟩
    · rw [srcIndex0_eq]
      exact idxBound hS0 hD0 hi
    · rw [srcIndexP5_eq]
      exact idxBound hS0 hD0 hi
  · intro h
    subst h
    constructor
    · apply List.length_eq_zero.mp
      rw [resamplePCM16_length _ _ _ hS0]
      simp
    · apply List.length_eq_zero.mp
      rw [resamplePcm16_length _ _ _ hS0]
      simp

set_option maxRecDepth 4000 in
/-- Witness for C5 with 160 samples resampled from 8 kHz to 16 kHz. -/
theorem c5_resample_length_and_clamp_witness :
    8000 ∈ ([8000, 16000, 24000] : List ℕ) ∧
    16000 ∈ ([8000, 16000, 24000] : List ℕ) ∧
    (List.replicate 160 (0 : ℤ)).length ∈ ([0, 1, 160, 3200] : List ℕ) ∧
    ((resamplePCM16 (List.replicate 160 (0 : ℤ)) 8000 16000).length =
        (List.replicate 160 (0 : ℤ)).length * 16000 / 8000 ∧
     (resamplePcm16 (List.replicate 160 (0 : ℤ)) 8000 16000).length =
        (List.replicate 160 (0 : ℤ)).length * 16000 / 8000 ∧
     (∀ i, i < (List.replicate 160 (0 : ℤ)).length * 16000 / 8000 →
        srcIndex0 8000 16000 i < (List.replicate 160 (0 : ℤ)).length ∧
        srcIndexP5 8000 16000 i < (List.replicate 160 (0 : ℤ)).length ∧
        min (srcIndex0 8000 16000 i + 1) ((List.replicate 160 (0 : ℤ)).length - 1) ≤
          (List.replicate 160 (0 : ℤ)).length - 1 ∧
        min (srcIndexP5 8000 16000 i + 1) ((List.replicate 160 (0 : ℤ)).length - 1) ≤
          (List.replicate 160 (0 : ℤ)).length - 1) ∧
     (List.replicate 160 (0 : ℤ) = [] →
        resamplePCM16 (List.replicate 160 (0 : ℤ)) 8000 16000 = [] ∧
        resamplePcm16 (List.replicate 160 (0 : ℤ)) 8000 16000 = [])) :=
  ⟨by decide, by decide, by decide,
   c5_resample_length_and_clamp (List.replicate 160 (0 : ℤ)) 8000 16000
     (by decide) (by decide) (by decide)⟩

theorem fillFrame_length_le (remaining : ℕ) (q : List (List ℕ)) :
    (Pacer.fillFrame remaining q).1.length ≤ remaining := by
  induction q generalizing remaining with
  | nil => simp [Pacer.fillFrame]
  | cons chunk rest ih =>
    rw [Pacer.fillFrame]
    by_cases h0 : remaining = 0
    · simp [h0]
    · rw [if_neg h0]
      by_cases hlt : min remaining chunk.length < chunk.length
      · simp only [if_pos hlt, List.length_take]
        omega
      · simp only [if_neg hlt, List.length_append, List.length_take]
        have h2 := ih (remaining - min remaining chunk.length)
        omega

theorem fillFrame_all (remaining : ℕ) (q : List (List ℕ))
    (h : (q.map List.length).sum < remaining) :
    Pacer.fillFrame remaining q = (q.flatten, []) := by
  induction q generalizing remaining with
  | nil => simp [Pacer.fillFrame]
  | cons chunk rest ih =>
    simp only [List.map_cons, List.sum_cons] at h
    have h0 : remaining ≠ 0 := by omega
    rw [Pacer.fillFrame, if_neg h0]
    have htake : min remaining chunk.length = chunk.length := by omega
    have hnlt : ¬ min remaining chunk.length < chunk.length := by omega
    rw [if_neg hnlt]
    rw [ih (remaining - min remaining chunk.length) (by omega)]
    simp [htake, List.flatten_cons]

/-- C6: whenever a pacer tick emits a frame, the frame is exactly 160
bytes; and when fewer queued bytes than a full frame are available, the
frame is all the queued bytes padded to full size with the mu-law
silence byte 0xFF = 255 — a non-zero byte — rather than a shrunk frame. -/
theorem c6_pacer_pads_partial_frames (sidOpt : Option ℕ) (tOpen : Bool)
    (outBuffer : List (List ℕ)) (f : List ℕ)
    (hf : (Pacer.pacerTick sidOpt tOpen outBuffer).2 = some f) :
    f.length = 160 ∧
    ((outBuffer.map List.length).sum < 160 →
      f = outBuffer.flatten ++
          List.replicate (160 - (outBuffer.map List.length).sum) 255 ∧
      0 < 160 - (outBuffer.map List.length).sum ∧ (255 : ℕ) ≠ 0) := by
  unfold Pacer.pacerTick at hf
  by_cases hguard : sidOpt = none ∨ tOpen = false
  · rw [if_pos hguard] at hf
    cases hf
  · rw [if_neg hguard] at hf
    simp only [Option.some.injEq] at hf
    have hlen := fillFrame_length_le Pacer.OUT_FRAME_SAMPLES outBuffer
    constructor
    · rw [← hf]
      simp only [List.length_append, List.length_replicate]
      have : Pacer.OUT_FRAME_SAMPLES = 160 := rfl
      omega
    · intro hlt
      have hall := fillFrame_all Pacer.OUT_FRAME_SAMPLES outBuffer
        (by rw [show Pacer.OUT_FRAME_SAMPLES = 160 from rfl]; exact hlt)
      rw [← hf, hall]
      have hflat : outBuffer.flatten.length = (outBuffer.map List.length).sum :=
        List.length_flatten outBuffer
      refine ⟨by rw [hflat]; rfl, by omega, by omega⟩

/-- Witness for C6: a tick with a single 1-byte chunk queued emits that
byte followed by 159 silence bytes. -/
theorem c6_pacer_pads_partial_frames_witness :
    (Pacer.pacerTick (some 1) true [[7]]).2 = some (7 :: List.replicate 159 255) ∧
    ((7 :: List.replicate 159 255).length = 160 ∧
     (([[7]].map List.length).sum < 160 →
       7 :: List.replicate 159 255 = [[7]].flatten ++
           List.replicate (160 - ([[7]].map List.length).sum) 255 ∧
       0 < 160 - ([[7]].map List.length).sum ∧ (255 : ℕ) ≠ 0)) :=
  ⟨by decide, c6_pacer_pads_partial_frames (some 1) true [[7]] _ (by decide)⟩

/-- C10: once the stream id is set and the Twilio socket is open, every
pacer tick emits exactly one 160-byte frame — the emission is not
conditioned on any AI audio being queued — and with an empty queue the
frame consists entirely of the mu-law silence byte 0xFF = 255. -/
theorem c10_pacer_emits_silence_frames (sid : ℕ) (outBuffer : List (List ℕ)) :
    ∃ f, (Pacer.pacerTick (some sid) true outBuffer).2 = some f ∧
      f.length = 160 ∧ (outBuffer = [] → f = List.replicate 160 255) := by
  unfold Pacer.pacerTick
  rw [if_neg (by simp)]
  refine ⟨_, rfl, ?_, ?_⟩
  · have hlen := fillFrame_length_le Pacer.OUT_FRAME_SAMPLES outBuffer
    simp only [List.length_append, List.length_replicate]
    have : Pacer.OUT_FRAME_SAMPLES = 160 := rfl
    omega
  · intro h
    subst h
    simp [Pacer.fillFrame, Pacer.OUT_FRAME_SAMPLES]

theorem part004_run_append (s : Part004.St) (l1 l2 : List PreEv) :
    Part004.run s (l1 ++ l2) = Part004.run (Part004.run s l1) l2 := by
  induction l1 generalizing s with
  | nil => rfl
  | cons e rest ih =>
    rw [List.cons_append, Part004.run, Part004.run, ih]

theorem part004_run_deltas (ds : List ℕ) (acc : List ℕ) (l : List (ℕ × ℕ)) :
    Part004.run ⟨none, true, acc, l⟩ (ds.map PreEv.openaiDelta) =
      ⟨none, true, acc ++ ds, l⟩ := by
  induction ds generalizing acc with
  | nil => simp [Part004.run]
  | cons d rest ih =>
    rw [List.map_cons, Part004.run,
      show Part004.step ⟨none, true, acc, l⟩ (PreEv.openaiDelta d) =
        ⟨none, true, acc ++ [d], l⟩ from rfl, ih]
    simp

/-- C3 (amended): in the buffering variant (`src/unnamed/part_004`,
second document), AI audio deltas arriving before the Twilio `start`
event are all queued (nothing is emitted to the Twilio socket before
`start`), and when `start` arrives they are flushed to the socket in
their original FIFO order, tagged with the received stream id, exactly
once (the pending queue is left empty). -/
theorem c3_part004_buffers_and_flushes (ds : List ℕ) (sid : ℕ) :
    (Part004.run Part004.init (ds.map PreEv.openaiDelta)).sent = [] ∧
    (Part004.run Part004.init (ds.map PreEv.openaiDelta)).pendingAudio = ds ∧
    (Part004.run Part004.init
        (ds.map PreEv.openaiDelta ++ [PreEv.twilioStart sid])).sent =
      ds.map (fun p => (sid, p)) ∧
    (Part004.run Part004.init
        (ds.map PreEv.openaiDelta ++ [PreEv.twilioStart sid])).pendingAudio = [] := by
  have h1 : Part004.run Part004.init (ds.map PreEv.openaiDelta) =
      ⟨none, true, ds, []⟩ := by
    have h := part004_run_deltas ds [] []
    simpa [Part004.init] using h
  have h2 : Part004.run Part004.init
      (ds.map PreEv.openaiDelta ++ [PreEv.twilioStart sid]) =
      ⟨some sid, true, [], ds.map (fun p => (sid, p))⟩ := by
    rw [part004_run_append, h1]
    simp [Part004.run, Part004.step, Part004.flushPendingAudio]
  rw [h1, h2]
  exact ⟨rfl, rfl, rfl, rfl⟩

/-- C3 counterexample: the claim is false for the cited delta forwarding
of `src/unnamed/part_000` — a delta arriving before `start` is dropped
(the guard `... && streamSid` fails and nothing is queued), so nothing is
flushed when `start` arrives. -/
theorem c3_counterexample : ¬ ClaimC3Statement := by
  intro h
  have h2 := (h.2 [1] 5).2
  exact absurd h2 (by decide)

theorem commitAudioBuffer_pos (s : MainBridge.St) (f r : Bool) (b : ℕ)
    (h : MainBridge.Act.commit b ∈ (MainBridge.commitAudioBuffer s f r).2) : 0 < b := by
  unfold MainBridge.commitAudioBuffer at h
  by_cases h1 : s.fallbackTriggered
  · simp [h1] at h
  · by_cases h2 : s.openaiOpen
    · by_cases h3 : s.bytesSinceCommit = 0
      · simp [h1, h2, h3] at h
      · rcases r with _ | _ <;> simp [h1, h2, h3] at h <;> omega
    · simp [h1, h2] at h

theorem step_commit_pos (s : MainBridge.St) (e : MainBridge.Ev) (b : ℕ)
    (h : MainBridge.Act.commit b ∈ (MainBridge.step s e).2) : 0 < b := by
  cases e with
  | media n =>
    unfold MainBridge.step MainBridge.handleMedia at h
    by_cases h1 : s.fallbackTriggered
    · simp [h1] at h
    · by_cases h2 : s.openaiReady && s.openaiOpen
      · by_cases h3 : n = 0
        · simp [h1, h2, h3] at h
        · by_cases h4 : MainBridge.commitThresholdBytes ≤ s.bytesSinceCommit + 4 * n
          · simp [h1, h2, h3, h4] at h
            exact commitAudioBuffer_pos _ _ _ _ h
          · simp [h1, h2, h3, h4] at h
      · simp [h1, h2] at h
  | commitTimerFire =>
    unfold MainBridge.step MainBridge.commitTimerFire at h
    by_cases h1 : s.timerSet
    · simp only [h1, Bool.not_true, Bool.false_eq_true, if_false] at h
      exact commitAudioBuffer_pos _ _ _ _ h
    · simp [h1] at h
  | responseDone =>
    unfold MainBridge.step MainBridge.handleResponseDone at h
    by_cases h1 : s.fallbackTriggered <;> simp [h1] at h

theorem run_commit_pos (tr : List (ℕ × MainBridge.Ev)) (s : MainBridge.St)
    (p : ℕ × MainBridge.Ev × List MainBridge.Act) (hp : p ∈ MainBridge.run s tr)
    (a : MainBridge.Act) (ha : a ∈ p.2.2) (b : ℕ)
    (hb : a = MainBridge.Act.commit b) : 0 < b := by
  induction tr generalizing s with
  | nil => simp [MainBridge.run] at hp
  | cons te rest ih =>
    obtain ⟨t, e⟩ := te
    rw [MainBridge.run] at hp
    rcases List.mem_cons.mp hp with h | h
    · subst h
      subst hb
      exact step_commit_pos s e b ha
    · exact ih _ h

/-- C2 (amended): in the main bridge, every turn finalization commits a
strictly positive amount of newly appended caller audio — a commit with
an empty buffer is skipped (`if (bytesToCommit === 0) return`), so
finalization storms of empty commits cannot occur.  (The single-flight
and positive-silence-gap parts of the original claim are refuted by
`c2_counterexample`.) -/
theorem c2_finalize_only_with_new_audio (tr : List (ℕ × MainBridge.Ev))
    (p : ℕ × MainBridge.Ev × List MainBridge.Act)
    (hp : p ∈ MainBridge.run MainBridge.init tr)
    (a : MainBridge.Act) (ha : a ∈ p.2.2) (b : ℕ)
    (hb : a = MainBridge.Act.commit b) : 0 < b :=
  run_commit_pos tr MainBridge.init p hp a ha b hb

/-- Witness for the amended C2: a 4000-byte media frame reaches the
16000-byte threshold and commits exactly those 16000 positive bytes. -/
theorem c2_finalize_only_with_new_audio_witness :
    (0, MainBridge.Ev.media 4000,
      [MainBridge.Act.appendAudio 16000, MainBridge.Act.commit 16000,
       MainBridge.Act.responseCreate]) ∈
      MainBridge.run MainBridge.init [(0, MainBridge.Ev.media 4000)] ∧
    MainBridge.Act.commit 16000 ∈
      [MainBridge.Act.appendAudio 16000, MainBridge.Act.commit 16000,
       MainBridge.Act.responseCreate] ∧
    (0 : ℕ) < 16000 :=
  ⟨by decide, by decide,
   c2_finalize_only_with_new_audio [(0, MainBridge.Ev.media 4000)]
     (0, MainBridge.Ev.media 4000,
       [MainBridge.Act.appendAudio 16000, MainBridge.Act.commit 16000,
        MainBridge.Act.responseCreate]) (by decide)
     (MainBridge.Act.commit 16000) (by decide) 16000 rfl⟩

/-- C2 counterexample: on the trace with two 4000-byte media frames at
times 0 and 1, the bridge issues two threshold-triggered finalizations
with no `response.done` between them (no single-flight gate exists in
the code), and the first finalization is emitted during the media event
itself — at the very timestamp of the latest caller audio, i.e. with no
positive silence gap.  Hence the claim, as stated, is false. -/
theorem c2_counterexample : ¬ MainBridge.ClaimC2Statement := by
  intro h
  obtain ⟨h1, h2, h3⟩ :=
    h [(0, MainBridge.Ev.media 4000), (1, MainBridge.Ev.media 4000)]
      (by simp [MainBridge.Chron])
  have hlt := h3 0 (by decide) 0 (le_refl 0) (by decide)
  exact absurd hlt (by decide)

theorem fallback_absorbing (es : List Fallback.Ev) (s : Fallback.St)
    (h1 : s.fallbackTriggered = true) (h2 : s.openaiOpen = false)
    (h3 : s.twilioOpen = false) :
    (Fallback.run s es).2 = [] ∧
    (Fallback.run s es).1.fallbackTriggered = true ∧
    (Fallback.run s es).1.openaiOpen = false ∧
    (Fallback.run s es).1.twilioOpen = false := by
  induction es generalizing s with
  | nil => exact ⟨rfl, h1, h2, h3⟩
  | cons e rest ih =>
    cases e with
    | openaiError =>
      have hstep : Fallback.step s Fallback.Ev.openaiError = (s, []) := by
        simp [Fallback.step, Fallback.onOpenaiError, Fallback.sendFallbackAndClose, h1]
      rw [Fallback.run, hstep]
      simpa using ih s h1 h2 h3
    | openaiClose =>
      have hstep : Fallback.step s Fallback.Ev.openaiClose =
          ({ s with openaiReady := false, openaiOpen := false }, []) := by
        simp [Fallback.step, Fallback.onOpenaiClose, h1]
      rw [Fallback.run, hstep]
      simpa using ih { s with openaiReady := false, openaiOpen := false }
        (by simpa using h1) rfl (by simpa using h3)
    | openaiAudioDelta p =>
      have hstep : Fallback.step s (Fallback.Ev.openaiAudioDelta p) = (s, []) := by
        simp [Fallback.step, Fallback.onOpenaiAudioDelta, h1]
      rw [Fallback.run, hstep]
      simpa using ih s h1 h2 h3

/-- C7: when the AI connection fails (transport error, or unexpected
close — in any readiness state, including before READY), exactly one
fallback notice is issued, both sockets end up closed, and no audio
frame is forwarded to the telephony side during or after the failure,
however many further failure triggers or audio deltas follow: the
`fallbackTriggered` flag makes the teardown idempotent. -/
theorem c7_fallback_exactly_once (r o : Bool) (e : Fallback.Ev)
    (es : List Fallback.Ev)
    (he : e = Fallback.Ev.openaiError ∨ e = Fallback.Ev.openaiClose) :
    (Fallback.run (Fallback.initAt r o) (e :: es)).2.count
        Fallback.Act.fallbackNotice = 1 ∧
    (Fallback.run (Fallback.initAt r o) (e :: es)).2.countP
        Fallback.isMediaFrame = 0 ∧
    (Fallback.run (Fallback.initAt r o) (e :: es)).1.openaiOpen = false ∧
    (Fallback.run (Fallback.initAt r o) (e :: es)).1.twilioOpen = false := by
  obtain ⟨ha1, ha2, ha3, ha4⟩ :=
    fallback_absorbing es ⟨true, true, false, false, false, true, true⟩ rfl rfl rfl
  rcases he with rfl | rfl
  · cases o with
    | true =>
      have hstep : Fallback.step (Fallback.initAt r true) Fallback.Ev.openaiError =
          (⟨true, true, false, false, false, true, true⟩,
           [Fallback.Act.closeOpenai, Fallback.Act.fallbackNotice,
            Fallback.Act.closeTwilio]) := by
        simp [Fallback.step, Fallback.onOpenaiError, Fallback.sendFallbackAndClose,
          Fallback.initAt]
      rw [Fallback.run, hstep]
      refine ⟨?_, ?_, ha3, ha4⟩
      · rw [List.count_append, ha1]
        decide
      · rw [List.countP_append, ha1]
        decide
    | false =>
      have hstep : Fallback.step (Fallback.initAt r false) Fallback.Ev.openaiError =
          (⟨true, true, false, false, false, true, true⟩,
           [Fallback.Act.fallbackNotice, Fallback.Act.closeTwilio]) := by
        simp [Fallback.step, Fallback.onOpenaiError, Fallback.sendFallbackAndClose,
          Fallback.initAt]
      rw [Fallback.run, hstep]
      refine ⟨?_, ?_, ha3, ha4⟩
      · rw [List.count_append, ha1]
        decide
      · rw [List.countP_append, ha1]
        decide
  · have hstep : Fallback.step (Fallback.initAt r o) Fallback.Ev.openaiClose =
        (⟨true, true, false, false, false, true, true⟩,
         [Fallback.Act.fallbackNotice, Fallback.Act.closeTwilio]) := by
      simp [Fallback.step, Fallback.onOpenaiClose, Fallback.sendFallbackAndClose,
        Fallback.initAt]
    rw [Fallback.run, hstep]
    refine ⟨?_, ?_, ha3, ha4⟩
    · rw [List.count_append, ha1]
      decide
    · rw [List.countP_append, ha1]
      decide

/-- Witness for C7: an error before READY followed by a redundant close
and a late audio delta still yields exactly one notice, closed sockets,
and no forwarded audio. -/
theorem c7_fallback_exactly_once_witness :
    (Fallback.Ev.openaiError = Fallback.Ev.openaiError ∨
     Fallback.Ev.openaiError = Fallback.Ev.openaiClose) ∧
    ((Fallback.run (Fallback.initAt false true)
        (Fallback.Ev.openaiError ::
          [Fallback.Ev.openaiClose, Fallback.Ev.openaiAudioDelta 7])).2.count
        Fallback.Act.fallbackNotice = 1 ∧
     (Fallback.run (Fallback.initAt false true)
        (Fallback.Ev.openaiError ::
          [Fallback.Ev.openaiClose, Fallback.Ev.openaiAudioDelta 7])).2.countP
        Fallback.isMediaFrame = 0 ∧
     (Fallback.run (Fallback.initAt false true)
        (Fallback.Ev.openaiError ::
          [Fallback.Ev.openaiClose, Fallback.Ev.openaiAudioDelta 7])).1.openaiOpen =
        false ∧
     (Fallback.run (Fallback.initAt false true)
        (Fallback.Ev.openaiError ::
          [Fallback.Ev.openaiClose, Fallback.Ev.openaiAudioDelta 7])).1.twilioOpen =
        false) :=
  ⟨Or.inl rfl,
   c7_fallback_exactly_once false true Fallback.Ev.openaiError
     [Fallback.Ev.openaiClose, Fallback.Ev.openaiAudioDelta 7] (Or.inl rfl)⟩

/-- C8 counterexample: the claim is false for the cited Twilio message
handler of the first server variant (src/server.js lines 86-100), whose
`JSON.parse` is unguarded — a malformed frame throws out of the handler
instead of being dropped. -/
theorem c8_counterexample : ¬ ClaimC8Statement := by
  intro h
  obtain ⟨⟨acts, h1, _⟩, _, _⟩ := h
  simp [ParseHandling.variant1TwilioOnMessage] at h1

/-- C8 (amended): in the main server variant a malformed frame from the
AI socket is dropped AND logged with the session continuing, and a
malformed frame from the telephony socket is dropped silently (no log)
with the session continuing — well-formed frames are processed normally
in both handlers; but in the first server variant the telephony message
handler parses without a guard, so a malformed frame raises instead of
being dropped. -/
theorem c8_malformed_frame_handling :
    ParseHandling.variant1TwilioOnMessage ParseHandling.Raw.malformed =
      Except.error "SyntaxError: unexpected token" ∧
    (∀ b, ParseHandling.mainTwilioOnMessage b ParseHandling.Raw.malformed =
      Except.ok []) ∧
    ParseHandling.mainOpenaiOnMessage false ParseHandling.Raw.malformed =
      Except.ok [ParseHandling.Act.logParseError] ∧
    (∀ b e, ∃ acts, ParseHandling.mainTwilioOnMessage b
        (ParseHandling.Raw.parsed e) = Except.ok acts) ∧
    (∀ v, ∃ acts, ParseHandling.mainOpenaiOnMessage false
        (ParseHandling.Raw.parsed v) = Except.ok acts) :=
  ⟨rfl, fun _ => rfl, rfl, fun _ _ => ⟨_, rfl⟩, fun _ => ⟨_, rfl⟩⟩
